import Mathlib

/-!
# Verification of the dynago dynamic DNS updater

Shallow embedding of the dynago repository (Go) into Lean 4:

* `internal/config`        : the `Config` structure and provider sub-maps,
  abstracted by the result of `ConfigFromMap` decoding into each provider's
  typed struct;
* `providers`              : the DNS provider registry (`NewDNSProviderRegistry`);
* `providers/cloudflare`   : the Cloudflare adapter (`New`, `UpdateRecordIP`)
  over a model of the Cloudflare API state;
* `providers/route53`      : the Route53 adapter (`New`, `UpdateRecordIP`)
  over a model of the Route53 API state;
* `internal/utils`         : `GetCurrentIP` over a model of an HTTP response;
* `internal/service`       : `DNSUpdateService.Start` — the provider-list
  construction, the registry phase, and the `for select` update loop, the
  latter modelled as a function of a trace of select events (timer ticks and
  context cancellation), each tick carrying the observable behaviour of the
  external world (the IP source and all providers) for that pass;
* `internal/logger`        : `InitLogger` over an abstract file-open effect.
-/

namespace Dynago

/-! ## Configuration (internal/config/config.go) -/

/-- Typed Cloudflare configuration (providers/cloudflare/cloudflare.go,
`CloudflareConfig`). -/
structure CloudflareConfig where
  enabled : Bool
  apiToken : String
  zoneID : String
  recordName : String
  recordType : String
  proxied : Bool
deriving DecidableEq, Repr

/-- Typed Route53 configuration (providers/route53/route53.go,
`Route53Config`). -/
structure Route53Config where
  enabled : Bool
  accessKeyID : String
  secretAccessKey : String
  hostedZoneID : String
  recordName : String
  recordType : String
  region : String
deriving DecidableEq, Repr

/-- A provider's raw YAML sub-map (an entry of `Config.Providers`), abstracted
by the outcome of `config.ConfigFromMap` decoding it into each provider's
typed struct; `none` means the decode returns an error. -/
structure RawProviderConfig where
  decodeCloudflare : Option CloudflareConfig
  decodeRoute53 : Option Route53Config
deriving DecidableEq, Repr

/-- `config.Config`: interval (an abstract duration count), IP-source URL,
log level, and the map from provider name to its raw sub-map (a Go map,
modelled as an association list with unique-key lookup). -/
structure Config where
  interval : Nat
  ipSource : String
  logLevel : String
  providers : List (String × RawProviderConfig)
deriving DecidableEq, Repr

/-- Go map read `cfg.Providers[name]`. -/
def Config.lookupProvider (cfg : Config) (name : String) : Option RawProviderConfig :=
  (cfg.providers.find? (fun kv => kv.1 = name)).map (fun kv => kv.2)

/-! ## Provider adapters: construction (providers/cloudflare, providers/route53) -/

/-- `cloudflare.CloudflareProvider` (the cached API client handle is part of
the API model, not of the adapter value). -/
structure CloudflareProvider where
  Cfg : CloudflareConfig
deriving DecidableEq, Repr

/-- `route53.Route53Provider`. -/
structure Route53Provider where
  Cfg : Route53Config
deriving DecidableEq, Repr

/-- `cloudflare.New`: decode the raw map into `CloudflareConfig`; on decode
failure return the error. -/
def cloudflareNew (raw : RawProviderConfig) : Except String CloudflareProvider :=
  match raw.decodeCloudflare with
  | some c => .ok ⟨c⟩
  | none => .error "yaml: unmarshal error"

/-- `route53.New`: decode the raw map into `Route53Config`; on decode failure
return the error. -/
def route53New (raw : RawProviderConfig) : Except String Route53Provider :=
  match raw.decodeRoute53 with
  | some c => .ok ⟨c⟩
  | none => .error "yaml: unmarshal error"

/-! ## Registry (providers package) -/

/-- A constructed adapter held by the registry: the `providers.DNSProvider`
interface, closed over the two concrete implementations. -/
inductive DNSProviderI where
  | cloudflare (p : CloudflareProvider)
  | route53 (p : Route53Provider)
deriving DecidableEq, Repr

/-- `providers.DNSProviderRegistry`. -/
structure DNSProviderRegistry where
  Providers : List DNSProviderI
deriving DecidableEq, Repr

/-- `providers.NewDNSProviderRegistry(cfg, providers...)`: errors iff the
variadic provider list is empty. -/
def NewDNSProviderRegistry (_cfg : Option Config) (providers : List DNSProviderI) :
    Except String DNSProviderRegistry :=
  if providers.length = 0 then .error "no DNS providers enabled in config"
  else .ok ⟨providers⟩

/-- The `if raw, ok := s.cfg.Providers["cloudflare"]` block of `Start`
(lines 71-76): append the Cloudflare adapter when construction succeeded and
the decoded config is enabled. -/
def appendCloudflare (cfg : Config) (l : List DNSProviderI) : List DNSProviderI :=
  match cfg.lookupProvider "cloudflare" with
  | some raw =>
    match cloudflareNew raw with
    | .ok cf => if cf.Cfg.enabled then l ++ [.cloudflare cf] else l
    | .error _ => l
  | none => l

/-- The `if raw, ok := s.cfg.Providers["route53"]` block of `Start`
(lines 77-82). -/
def appendRoute53 (cfg : Config) (l : List DNSProviderI) : List DNSProviderI :=
  match cfg.lookupProvider "route53" with
  | some raw =>
    match route53New raw with
    | .ok r53 => if r53.Cfg.enabled then l ++ [.route53 r53] else l
    | .error _ => l
  | none => l

/-- The provider-list construction in `DNSUpdateService.Start` (lines 70-82):
starting from the empty slice, the two hardcoded keys are tried in order. -/
def buildProvidersList (cfg : Config) : List DNSProviderI :=
  appendRoute53 cfg (appendCloudflare cfg [])

/-- Observer: the Cloudflare adapter that `Start` appends, if any — the
"cloudflare" sub-map exists, decodes, and is marked enabled. -/
def enabledCloudflare (cfg : Config) : Option CloudflareProvider :=
  match cfg.lookupProvider "cloudflare" with
  | some raw =>
    match cloudflareNew raw with
    | .ok cf => if cf.Cfg.enabled then some cf else none
    | .error _ => none
  | none => none

/-- Observer: the Route53 adapter that `Start` appends, if any. -/
def enabledRoute53 (cfg : Config) : Option Route53Provider :=
  match cfg.lookupProvider "route53" with
  | some raw =>
    match route53New raw with
    | .ok r53 => if r53.Cfg.enabled then some r53 else none
    | .error _ => none
  | none => none

/-! ## IP source client (internal/utils, `GetCurrentIP`) -/

/-- A model of the `http.Get` response: the status code and the outcome of
`io.ReadAll` on the body. -/
structure HTTPResponse where
  statusCode : Nat
  body : Except String String
deriving Repr

/-- `utils.GetCurrentIP`: the argument is the outcome of `http.Get` on the
configured URL. Transport error → error; non-200 status → error; body-read
error → error; otherwise the body string. -/
def GetCurrentIP (resp : Except String HTTPResponse) : Except String String :=
  match resp with
  | .error e => .error e
  | .ok r =>
    if r.statusCode ≠ 200 then .error "failed to fetch IP: non-200 response"
    else
      match r.body with
      | .error e => .error e
      | .ok b => .ok b

/-! ## Provider record operations over vendor API models -/

/-- A Cloudflare DNS record, with the fields the adapter reads. -/
structure CFRecord where
  id : String
  name : String
  rtype : String
  content : String
deriving DecidableEq, Repr

/-- The observable state of the Cloudflare API for one adapter call:
the zone's records and the failure modes of the three effectful steps
(`NewWithAPIToken`, `ListDNSRecords`, `UpdateDNSRecord`). -/
structure CFApi where
  records : List CFRecord
  clientErr : Option String
  listErr : Option String
  updateErr : Option String
deriving Repr

/-- `ListDNSRecords` with `Name`/`Type` params: server-side filter of the
zone's records. -/
def cfListDNSRecords (api : CFApi) (name rtype : String) : Except String (List CFRecord) :=
  match api.listErr with
  | some e => .error e
  | none => .ok (api.records.filter (fun r => r.name = name ∧ r.rtype = rtype))

/-- `cloudflare.CloudflareProvider.UpdateRecordIP`: get the client, list the
records matching the configured name/type, update the first match, and error
with "record not found for update" when none matches. -/
def cloudflareUpdateRecordIP (api : CFApi) (cfg : CloudflareConfig) (ip : String) :
    Except String Unit :=
  match api.clientErr with
  | some e => .error e
  | none =>
    match cfListDNSRecords api cfg.recordName cfg.recordType with
    | .error e => .error e
    | .ok records =>
      match records.find? (fun r => r.name = cfg.recordName && r.rtype = cfg.recordType) with
      | some _record =>
        match api.updateErr with
        | some e => .error e
        | none => .ok ()
      | none => .error "record not found for update"

/-- A Route53 resource record set, with the fields the adapter touches. -/
structure R53RecordSet where
  name : String
  rtype : String
  values : List String
deriving DecidableEq, Repr

/-- The observable state of the Route53 API for one adapter call: the hosted
zone's record sets and the failure modes of the effectful steps
(`LoadDefaultConfig`, `ListResourceRecordSets`, `ChangeResourceRecordSets`). -/
structure R53Api where
  recordSets : List R53RecordSet
  clientErr : Option String
  listErr : Option String
  changeErr : Option String
deriving Repr

/-- `route53.Route53Provider.UpdateRecordIP`: get the client, then issue a
single `ChangeResourceRecordSets` with action UPSERT for the configured
name/type and return that call's error. The existing record sets are never
consulted: UPSERT creates the record set when it is absent. -/
def route53UpdateRecordIP (api : R53Api) (cfg : Route53Config) (ip : String) :
    Except String Unit :=
  match api.clientErr with
  | some e => .error e
  | none =>
    match api.changeErr with
    | some e => .error e
    | none => .ok ()

/-- The hosted-zone state after a successful Route53 UPSERT: the matching
record set is replaced, or appended when absent. -/
def r53Upsert (sets : List R53RecordSet) (cfg : Route53Config) (ip : String) :
    List R53RecordSet :=
  if (sets.find? (fun r => r.name = cfg.recordName && r.rtype = cfg.recordType)).isSome
  then sets.map (fun r =>
    if r.name = cfg.recordName && r.rtype = cfg.recordType
    then ⟨cfg.recordName, cfg.recordType, [ip]⟩ else r)
  else sets ++ [⟨cfg.recordName, cfg.recordType, [ip]⟩]

/-! ## The update loop (internal/service, `DNSUpdateService.Start`) -/

/-- The observable behaviour of one registry provider during one pass: its
name and the results its `GetRecordIP` / `UpdateRecordIP` calls would return
this tick. -/
structure ProviderBehavior where
  name : String
  getRecordIP : Except String String
  updateRecordIP : String → Except String Unit

/-- One observable interface call made by the loop body, tagged with the
position of the provider in `reg.Providers`; `writeLastKnown` records the
`lastKnown[providerName] = currentIP` map write. -/
inductive Call where
  | getRecord (idx : Nat)
  | updateRecord (idx : Nat) (ip : String)
  | writeLastKnown (idx : Nat) (name : String) (ip : String)
deriving DecidableEq, Repr

/-- The registry index a call is tagged with. -/
def Call.callIdx : Call → Nat
  | .getRecord i => i
  | .updateRecord i _ => i
  | .writeLastKnown i _ _ => i

/-- Go map assignment `m[k] = v`. -/
def insertLastKnown (m : List (String × String)) (k v : String) :
    List (String × String) :=
  if (m.find? (fun kv => kv.1 = k)).isSome
  then m.map (fun kv => if kv.1 = k then (k, v) else kv)
  else m ++ [(k, v)]

/-- The per-provider body of the pass (Start lines 108-124): read the record
IP (skip on error), compare, conditionally update (skip on error), and on a
successful update write the last-known map. Returns the calls made and the
updated map. -/
def processProvider (currentIP : String) (idx : Nat) (p : ProviderBehavior)
    (lastKnown : List (String × String)) :
    List Call × List (String × String) :=
  match p.getRecordIP with
  | .error _ => ([.getRecord idx], lastKnown)
  | .ok dnsIP =>
    if dnsIP ≠ currentIP then
      match p.updateRecordIP currentIP with
      | .error _ => ([.getRecord idx, .updateRecord idx currentIP], lastKnown)
      | .ok _ =>
        ([.getRecord idx, .updateRecord idx currentIP,
          .writeLastKnown idx p.name currentIP],
         insertLastKnown lastKnown p.name currentIP)
    else ([.getRecord idx], lastKnown)

/-- The `for _, p := range reg.Providers` loop of one pass, with `idx` the
position of the head of `ps` in the registry. -/
def runPassAux (currentIP : String) (idx : Nat) (ps : List ProviderBehavior)
    (lastKnown : List (String × String)) :
    List Call × List (String × String) :=
  match ps with
  | [] => ([], lastKnown)
  | p :: rest =>
    let r := processProvider currentIP idx p lastKnown
    let r2 := runPassAux currentIP (idx + 1) rest r.2
    (r.1 ++ r2.1, r2.2)

/-- The external world during one tick: the `GetCurrentIP` outcome and the
behaviour of each registry provider. -/
structure PassEnv where
  fetch : Except String String
  providers : List ProviderBehavior

/-- One `ticker.C` case of the select (Start lines 101-125): a failed IP
fetch is logged and the tick does nothing else; otherwise one pass runs over
all providers. -/
def runTick (env : PassEnv) (lastKnown : List (String × String)) :
    List Call × List (String × String) :=
  match env.fetch with
  | .error _ => ([], lastKnown)
  | .ok currentIP => runPassAux currentIP 0 env.providers lastKnown

/-- One resolved `select` event: the context's done channel fired, or the
ticker fired with that tick's external-world behaviour. -/
inductive Ev where
  | ctxDone
  | tick (env : PassEnv)

/-- How a finite trace of the loop ends: `returned err` models `return err`
(the code only ever produces `returned none`, i.e. `return nil`); `running`
means the trace was exhausted with the loop still waiting on the select. -/
inductive LoopOutcome where
  | returned (err : Option String)
  | running
deriving DecidableEq, Repr

/-- The `for select` loop of `Start` (lines 96-127), driven by a trace of
select events: on `ctxDone` it returns nil at once; on a tick it runs the
tick body and continues. Returns all interface calls made and the outcome. -/
def runLoop (evs : List Ev) (lastKnown : List (String × String)) :
    List Call × LoopOutcome :=
  match evs with
  | [] => ([], .running)
  | .ctxDone :: _ => ([], .returned none)
  | .tick env :: rest =>
    let r := runTick env lastKnown
    let r2 := runLoop rest r.2
    (r.1 ++ r2.1, r2.2)

/-- How a run of `DNSUpdateService.Start` ends: the nil return on a nil
config (line 66), the wrapped registry-construction error (line 86), or
entry into the update loop with its calls and outcome. -/
inductive StartOutcome where
  | nilNoConfig
  | registryError (msg : String)
  | loop (calls : List Call) (outcome : LoopOutcome)
deriving DecidableEq, Repr

/-- `DNSUpdateService.Start`: nil config returns nil immediately; then the
provider list is built and the registry constructed, a failure being wrapped
and returned; otherwise the ticker loop runs over the event trace with an
empty last-known map. -/
def start (cfg : Option Config) (evs : List Ev) : StartOutcome :=
  match cfg with
  | none => .nilNoConfig
  | some c =>
    let providersList := buildProvidersList c
    match NewDNSProviderRegistry (some c) providersList with
    | .error e => .registryError ("failed to create DNS provider registry: " ++ e)
    | .ok _reg =>
      let r := runLoop evs []
      .loop r.1 r.2

/-! ## Observables over call traces -/

/-- The `UpdateRecordIP` calls a trace contains for the provider at registry
position `i`. -/
def updatesFor (i : Nat) (cs : List Call) : List Call :=
  cs.filter (fun c => match c with | .updateRecord j _ => j = i | _ => false)

/-- The `lastKnown` map writes a trace contains for the provider at registry
position `i`. -/
def writesFor (i : Nat) (cs : List Call) : List Call :=
  cs.filter (fun c => match c with | .writeLastKnown j _ _ => j = i | _ => false)

/-- The `GetRecordIP` calls a trace contains for the provider at registry
position `i`. -/
def getsFor (i : Nat) (cs : List Call) : List Call :=
  cs.filter (fun c => match c with | .getRecord j => j = i | _ => false)

/-! ## Logger (internal/logger, `InitLogger`) -/

/-- The zerolog levels the logger distinguishes. -/
inductive LogLevel where
  | debug
  | info
  | warn
  | error
deriving DecidableEq, Repr

/-- `strings.ToLower`, character by character (the level keywords the switch
compares against are all ASCII). -/
def goToLower (s : String) : String := ⟨s.data.map Char.toLower⟩

/-- The `switch strings.ToLower(level)` of `InitLogger` (lines 72-83): any
unrecognized value falls through to the info level. -/
def levelFromString (level : String) : LogLevel :=
  match goToLower level with
  | "debug" => .debug
  | "info" => .info
  | "warn" => .warn
  | "error" => .error
  | _ => .info

/-- Where application logs go: `io.Discard` or the opened file. -/
inductive Writer where
  | discard
  | file (path : String)
deriving DecidableEq, Repr

/-- The logger package state that `InitLogger` establishes. -/
structure LoggerState where
  appWriter : Writer
  logLevel : LogLevel
deriving DecidableEq, Repr

/-- `logger.InitLogger(appLogFile, level)`, parameterized by the outcome of
`os.OpenFile` on a given path: the writer defaults to discard, a non-empty
path is opened (propagating the open error), and the level string is mapped
with its info default. -/
def InitLogger (openFile : String → Except String Unit) (appLogFile level : String) :
    Except String LoggerState :=
  if appLogFile ≠ "" then
    match openFile appLogFile with
    | .error e => .error e
    | .ok _ => .ok ⟨Writer.file appLogFile, levelFromString level⟩
  else .ok ⟨Writer.discard, levelFromString level⟩

/-! ## Concrete fixtures (mirroring the repository's test data) -/

/-- The Cloudflare adapter built from the sample YAML of the config test. -/
def cfW : CloudflareProvider :=
  ⟨⟨true, "cf-token", "cf-zone", "home.example.com", "A", true⟩⟩

/-- The Route53 adapter built from the sample YAML (with `enabled: true`). -/
def r53W : Route53Provider :=
  ⟨⟨true, "aws-key", "aws-secret", "aws-zone", "home.example.com", "A", "us-east-1"⟩⟩

/-- A raw "cloudflare" sub-map that decodes to an enabled config. -/
def rawCFW : RawProviderConfig := ⟨some cfW.Cfg, none⟩

/-- A raw "route53" sub-map that decodes to an enabled config. -/
def rawR53W : RawProviderConfig := ⟨none, some r53W.Cfg⟩

/-- A raw sub-map on which both typed decodes fail (malformed YAML values). -/
def rawBad : RawProviderConfig := ⟨none, none⟩

/-- A config enabling only Cloudflare. -/
def cfgCFOnly : Config :=
  ⟨300, "https://api.ipify.org", "info", [("cloudflare", rawCFW)]⟩

/-- A config enabling both providers, Cloudflare listed first. -/
def cfgBoth : Config :=
  ⟨300, "https://api.ipify.org", "info",
    [("cloudflare", rawCFW), ("route53", rawR53W)]⟩

/-- A config with no provider sub-maps at all. -/
def cfgEmpty : Config := ⟨300, "https://api.ipify.org", "info", []⟩

/-! ## Helper lemmas: registry construction -/

lemma appendCloudflare_eq (cfg : Config) (l : List DNSProviderI) :
    appendCloudflare cfg l =
      l ++ ((enabledCloudflare cfg).map DNSProviderI.cloudflare).toList := by
  unfold appendCloudflare enabledCloudflare
  rcases cfg.lookupProvider "cloudflare" with _ | raw
  · simp
  · rcases h : cloudflareNew raw with e | cf
    · simp [h]
    · by_cases he : cf.Cfg.enabled <;> simp [h, he]

lemma appendRoute53_eq (cfg : Config) (l : List DNSProviderI) :
    appendRoute53 cfg l =
      l ++ ((enabledRoute53 cfg).map DNSProviderI.route53).toList := by
  unfold appendRoute53 enabledRoute53
  rcases cfg.lookupProvider "route53" with _ | raw
  · simp
  · rcases h : route53New raw with e | r53
    · simp [h]
    · by_cases he : r53.Cfg.enabled <;> simp [h, he]

lemma buildProvidersList_eq (cfg : Config) :
    buildProvidersList cfg =
      ((enabledCloudflare cfg).map DNSProviderI.cloudflare).toList ++
      ((enabledRoute53 cfg).map DNSProviderI.route53).toList := by
  unfold buildProvidersList
  rw [appendCloudflare_eq, appendRoute53_eq]
  simp

lemma newRegistry_nil (c : Option Config) :
    NewDNSProviderRegistry c [] = .error "no DNS providers enabled in config" := rfl

lemma newRegistry_ok (c : Option Config) (l : List DNSProviderI) (h : l ≠ []) :
    NewDNSProviderRegistry c l = .ok ⟨l⟩ := by
  unfold NewDNSProviderRegistry
  simp [List.length_eq_zero, h]

lemma newRegistry_ok_providers (c : Option Config) (l : List DNSProviderI)
    (reg : DNSProviderRegistry) (h : NewDNSProviderRegistry c l = .ok reg) :
    reg.Providers = l := by
  unfold NewDNSProviderRegistry at h
  split at h
  · exact absurd h (by simp)
  · cases h; rfl

lemma start_registryError_of_none (c : Config) (evs : List Ev)
    (h1 : enabledCloudflare c = none) (h2 : enabledRoute53 c = none) :
    buildProvidersList c = [] ∧
    start (some c) evs =
      .registryError "failed to create DNS provider registry: no DNS providers enabled in config" := by
  have hb : buildProvidersList c = [] := by
    rw [buildProvidersList_eq, h1, h2]; rfl
  refine ⟨hb, ?_⟩
  show (match NewDNSProviderRegistry (some c) (buildProvidersList c) with
    | Except.error e =>
      StartOutcome.registryError ("failed to create DNS provider registry: " ++ e)
    | Except.ok _reg => StartOutcome.loop (runLoop evs []).1 (runLoop evs []).2) = _
  rw [hb, newRegistry_nil]
  rfl

/-! ## Helper lemmas: the update pass -/

lemma processProvider_fst (X : String) (idx : Nat) (p : ProviderBehavior)
    (lk lk' : List (String × String)) :
    (processProvider X idx p lk).1 = (processProvider X idx p lk').1 := by
  unfold processProvider
  rcases h : p.getRecordIP with e | dnsIP
  · simp [h]
  · by_cases hx : dnsIP = X
    · simp [h, hx]
    · rcases hu : p.updateRecordIP X with e | u <;> simp [h, hx, hu]

lemma callIdx_processProvider (X : String) (idx : Nat) (p : ProviderBehavior)
    (lk : List (String × String)) :
    ∀ c ∈ (processProvider X idx p lk).1, c.callIdx = idx := by
  unfold processProvider
  rcases h : p.getRecordIP with e | dnsIP
  · simp [h, Call.callIdx]
  · by_cases hx : dnsIP = X
    · simp [h, hx, Call.callIdx]
    · rcases hu : p.updateRecordIP X with e | u <;>
        simp [h, hx, hu, Call.callIdx]

lemma callIdx_ge_runPassAux (X : String) :
    ∀ (ps : List ProviderBehavior) (idx : Nat) (lk : List (String × String))
      (c : Call), c ∈ (runPassAux X idx ps lk).1 → idx ≤ c.callIdx := by
  intro ps
  induction ps with
  | nil => intro idx lk c hc; simp [runPassAux] at hc
  | cons p rest ih =>
    intro idx lk c hc
    simp only [runPassAux] at hc
    rcases List.mem_append.mp hc with h1 | h2
    · exact (callIdx_processProvider X idx p lk c h1).ge
    · exact le_trans (Nat.le_succ idx) (ih (idx + 1) _ c h2)

lemma sel_runPassAux (X : String) (sel : Call → Bool) :
    ∀ (ps : List ProviderBehavior) (k : Nat) (hk : k < ps.length)
      (idx : Nat) (lk : List (String × String)),
      (∀ c, sel c = true → c.callIdx = idx + k) →
      (runPassAux X idx ps lk).1.filter sel =
        ((processProvider X (idx + k) (ps.get ⟨k, hk⟩) []).1).filter sel := by
  intro ps
  induction ps with
  | nil => intro k hk; simp at hk
  | cons p rest ih =>
    intro k hk idx lk hsel
    simp only [runPassAux, List.filter_append]
    cases k with
    | zero =>
      have h2 : ((runPassAux X (idx + 1) rest
          ((processProvider X idx p lk).2)).1).filter sel = [] := by
        apply List.filter_eq_nil_iff.mpr
        intro c hc hsc
        have hge := callIdx_ge_runPassAux X rest (idx + 1) _ c hc
        have heq := hsel c hsc
        omega
      rw [h2, List.append_nil, processProvider_fst X idx p lk []]
      rfl
    | succ j =>
      have h1 : ((processProvider X idx p lk).1).filter sel = [] := by
        apply List.filter_eq_nil_iff.mpr
        intro c hc hsc
        have hidx := callIdx_processProvider X idx p lk c hc
        have heq := hsel c hsc
        omega
      rw [h1, List.nil_append]
      have hk' : j < rest.length := by simpa using Nat.lt_of_succ_lt_succ hk
      have hstep := ih j hk' (idx + 1) ((processProvider X idx p lk).2)
        (by intro c hc; rw [hsel c hc]; omega)
      rw [hstep]
      have harith : idx + 1 + j = idx + (j + 1) := by omega
      rw [harith]
      rfl

lemma updatesFor_runTick (X : String) (ps : List ProviderBehavior)
    (lk : List (String × String)) (i : Nat) (hi : i < ps.length) :
    updatesFor i (runTick ⟨.ok X, ps⟩ lk).1 =
      updatesFor i (processProvider X i (ps.get ⟨i, hi⟩) []).1 := by
  unfold updatesFor
  have hsel : ∀ c : Call,
      (match c with | Call.updateRecord j _ => decide (j = i) | _ => false) = true →
      c.callIdx = 0 + i := by
    intro c hc
    cases c <;> simp_all [Call.callIdx]
  have h := sel_runPassAux X _ ps i hi 0 lk hsel
  show (runPassAux X 0 ps lk).1.filter _ = _
  rw [h]
  simp

lemma writesFor_runTick (X : String) (ps : List ProviderBehavior)
    (lk : List (String × String)) (i : Nat) (hi : i < ps.length) :
    writesFor i (runTick ⟨.ok X, ps⟩ lk).1 =
      writesFor i (processProvider X i (ps.get ⟨i, hi⟩) []).1 := by
  unfold writesFor
  have hsel : ∀ c : Call,
      (match c with | Call.writeLastKnown j _ _ => decide (j = i) | _ => false) = true →
      c.callIdx = 0 + i := by
    intro c hc
    cases c <;> simp_all [Call.callIdx]
  have h := sel_runPassAux X _ ps i hi 0 lk hsel
  show (runPassAux X 0 ps lk).1.filter _ = _
  rw [h]
  simp

lemma getsFor_runTick (X : String) (ps : List ProviderBehavior)
    (lk : List (String × String)) (i : Nat) (hi : i < ps.length) :
    getsFor i (runTick ⟨.ok X, ps⟩ lk).1 =
      getsFor i (processProvider X i (ps.get ⟨i, hi⟩) []).1 := by
  unfold getsFor
  have hsel : ∀ c : Call,
      (match c with | Call.getRecord j => decide (j = i) | _ => false) = true →
      c.callIdx = 0 + i := by
    intro c hc
    cases c <;> simp_all [Call.callIdx]
  have h := sel_runPassAux X _ ps i hi 0 lk hsel
  show (runPassAux X 0 ps lk).1.filter _ = _
  rw [h]
  simp

lemma updatesFor_processProvider_ok (X : String) (i : Nat) (p : ProviderBehavior)
    (Y : String) (h : p.getRecordIP = .ok Y) :
    updatesFor i (processProvider X i p []).1 =
      if Y = X then [] else [Call.updateRecord i X] := by
  unfold processProvider updatesFor
  by_cases hx : Y = X
  · simp [h, hx]
  · rcases hu : p.updateRecordIP X with e | u <;> simp [h, hx, hu]

lemma updatesFor_processProvider_err (X : String) (i : Nat) (p : ProviderBehavior)
    (e : String) (h : p.getRecordIP = .error e) :
    updatesFor i (processProvider X i p []).1 = [] := by
  simp [processProvider, updatesFor, h]

lemma writesFor_processProvider_err (X : String) (i : Nat) (p : ProviderBehavior)
    (e : String) (h : p.getRecordIP = .error e) :
    writesFor i (processProvider X i p []).1 = [] := by
  simp [processProvider, writesFor, h]

lemma writesFor_processProvider_updateErr (X : String) (i : Nat)
    (p : ProviderBehavior) (Y e : String) (h : p.getRecordIP = .ok Y)
    (hx : Y ≠ X) (hu : p.updateRecordIP X = .error e) :
    writesFor i (processProvider X i p []).1 = [] := by
  simp [processProvider, writesFor, h, hx, hu]

lemma getsFor_processProvider (X : String) (i : Nat) (p : ProviderBehavior) :
    getsFor i (processProvider X i p []).1 = [Call.getRecord i] := by
  unfold processProvider getsFor
  rcases h : p.getRecordIP with e | dnsIP
  · simp [h]
  · by_cases hx : dnsIP = X
    · simp [h, hx]
    · rcases hu : p.updateRecordIP X with e | u <;> simp [h, hx, hu]

/-! ## Helper lemmas: the select loop -/

lemma runLoop_returned_iff :
    ∀ (evs : List Ev) (lk : List (String × String)),
      (runLoop evs lk).2 = .returned none ↔ Ev.ctxDone ∈ evs := by
  intro evs
  induction evs with
  | nil => intro lk; simp [runLoop]
  | cons e rest ih =>
    intro lk
    cases e with
    | ctxDone => simp [runLoop]
    | tick env =>
      simp only [runLoop]
      rw [ih]
      constructor
      · intro h; exact List.mem_cons_of_mem _ h
      · intro h
        rcases List.mem_cons.mp h with h1 | h2
        · exact absurd h1.symm (by simp)
        · exact h2

lemma runLoop_cancel (post : List Ev) :
    ∀ (pre : List Ev) (lk : List (String × String)), Ev.ctxDone ∉ pre →
      runLoop (pre ++ Ev.ctxDone :: post) lk = ((runLoop pre lk).1, .returned none) := by
  intro pre
  induction pre with
  | nil => intro lk h; simp [runLoop]
  | cons e rest ih =>
    intro lk h
    have hne : e ≠ Ev.ctxDone := fun he => h (he ▸ List.mem_cons_self e rest)
    have hnr : Ev.ctxDone ∉ rest := fun hr => h (List.mem_cons_of_mem e hr)
    cases e with
    | ctxDone => exact absurd rfl hne
    | tick env =>
      simp only [List.cons_append, runLoop, List.append_eq]
      rw [ih _ hnr]

/-! ## Claim theorems -/

/-- C5: `GetCurrentIP` returns the body with nil error for every
status-200 response, and an error (the non-200 message) for every response
whose status is not 200. -/
theorem getCurrentIP_spec :
    (∀ B : String, GetCurrentIP (.ok ⟨200, .ok B⟩) = .ok B) ∧
    (∀ (s : Nat) (body : Except String String), s ≠ 200 →
      GetCurrentIP (.ok ⟨s, body⟩) = .error "failed to fetch IP: non-200 response") := by
  constructor
  · intro B; rfl
  · intro s body hs
    simp [GetCurrentIP, hs]

/-- Witness for C5: a stub server answering 200 with body "1.2.3.4" yields
ok "1.2.3.4"; a stub server answering 500 yields the error. -/
theorem getCurrentIP_spec_witness :
    GetCurrentIP (.ok ⟨200, .ok "1.2.3.4"⟩) = .ok "1.2.3.4" ∧
    GetCurrentIP (.ok ⟨500, .ok "Internal Server Error"⟩) =
      .error "failed to fetch IP: non-200 response" :=
  ⟨getCurrentIP_spec.1 "1.2.3.4",
   getCurrentIP_spec.2 500 (.ok "Internal Server Error") (by decide)⟩

/-- C8: `Start` on a service whose configuration is nil returns nil
immediately: the outcome is `nilNoConfig`, produced before any registry
construction, ticker start, or provider call, whatever the select trace
would have been. -/
theorem start_nil_config (evs : List Ev) : start none evs = .nilNoConfig := rfl

/-- C10: `InitLogger` never fails on the level string — an empty log-file
path always succeeds with the writer discarded, the error cases are exactly
the failed opens of a non-empty path, and every unrecognized level string
falls back to the info level. -/
theorem initLogger_level_never_fails :
    (∀ (o : String → Except String Unit) (level : String),
      InitLogger o "" level = .ok ⟨Writer.discard, levelFromString level⟩) ∧
    (∀ (o : String → Except String Unit) (path level e : String),
      InitLogger o path level = .error e ↔ path ≠ "" ∧ o path = .error e) ∧
    (∀ level : String,
      goToLower level ≠ "debug" → goToLower level ≠ "info" →
      goToLower level ≠ "warn" → goToLower level ≠ "error" →
      levelFromString level = .info) := by
  refine ⟨?_, ?_, ?_⟩
  · intro o level; rfl
  · intro o path level e
    unfold InitLogger
    by_cases hp : path = ""
    · subst hp; simp
    · rcases ho : o path with e2 | u <;> simp [hp, ho]
  · intro level h1 h2 h3 h4
    unfold levelFromString
    split <;> simp_all

/-- Witness for C10: the unrecognized level "verbose" defaults to info and
does not make `InitLogger` fail; a failed open of a non-empty path is the
only error. -/
theorem initLogger_level_never_fails_witness :
    InitLogger (fun _ => Except.ok ()) "" "verbose" =
      .ok ⟨Writer.discard, LogLevel.info⟩ ∧
    InitLogger (fun _ => Except.error "no such directory") "app.log" "verbose" =
      .error "no such directory" ∧
    levelFromString "verbose" = .info := by
  have h3 := initLogger_level_never_fails.2.2 "verbose"
    (by decide) (by decide) (by decide) (by decide)
  refine ⟨?_, ?_, h3⟩
  · have h := initLogger_level_never_fails.1 (fun _ => Except.ok ()) "verbose"
    rw [h, h3]
  · exact (initLogger_level_never_fails.2.1
      (fun _ => Except.error "no such directory") "app.log" "verbose"
      "no such directory").mpr ⟨by decide, rfl⟩

/-- C1: per-pass conditional update. In a pass whose IP fetch succeeded with
`X`, for the registry provider at position `i` whose `GetRecordIP` succeeded
returning `Y`: no `UpdateRecordIP` call is made for it when `Y = X`, and
exactly one `UpdateRecordIP` call — with argument `X` — is made when
`Y ≠ X`. -/
theorem per_pass_conditional_update (X : String) (ps : List ProviderBehavior)
    (lk : List (String × String)) (i : Nat) (hi : i < ps.length) (Y : String)
    (hget : (ps.get ⟨i, hi⟩).getRecordIP = .ok Y) :
    updatesFor i (runTick ⟨.ok X, ps⟩ lk).1 =
      if Y = X then [] else [Call.updateRecord i X] := by
  rw [updatesFor_runTick X ps lk i hi,
    updatesFor_processProvider_ok X i (ps.get ⟨i, hi⟩) Y hget]

/-- Witness for C1: a single provider holding "1.1.1.1" is updated exactly
once, to "2.2.2.2", when the fetch returns "2.2.2.2", and not at all when
the fetch returns "1.1.1.1". -/
theorem per_pass_conditional_update_witness :
    updatesFor 0 (runTick ⟨.ok "2.2.2.2",
      [⟨"cloudflare", .ok "1.1.1.1", fun _ => .ok ()⟩]⟩ []).1 =
      [Call.updateRecord 0 "2.2.2.2"] ∧
    updatesFor 0 (runTick ⟨.ok "1.1.1.1",
      [⟨"cloudflare", .ok "1.1.1.1", fun _ => .ok ()⟩]⟩ []).1 = [] := by
  constructor
  · exact (per_pass_conditional_update "2.2.2.2"
      [⟨"cloudflare", .ok "1.1.1.1", fun _ => .ok ()⟩] [] 0 (by decide)
      "1.1.1.1" rfl).trans (by decide)
  · exact (per_pass_conditional_update "1.1.1.1"
      [⟨"cloudflare", .ok "1.1.1.1", fun _ => .ok ()⟩] [] 0 (by decide)
      "1.1.1.1" rfl).trans (by decide)

/-- C2: per-provider failure isolation. In a pass with a successful fetch,
every provider gets exactly one `GetRecordIP` call, whatever happened to the
providers before it; a provider whose `GetRecordIP` fails receives no update
and no last-known write; a provider whose update fails receives no
last-known write; a failed fetch makes the tick do nothing; and a tick never
terminates the loop — the outcome is that of the remaining trace. -/
theorem per_provider_failure_isolation :
    (∀ (X : String) (ps : List ProviderBehavior) (lk : List (String × String))
      (j : Nat) (hj : j < ps.length),
      getsFor j (runTick ⟨.ok X, ps⟩ lk).1 = [Call.getRecord j]) ∧
    (∀ (X : String) (ps : List ProviderBehavior) (lk : List (String × String))
      (i : Nat) (hi : i < ps.length) (e : String),
      (ps.get ⟨i, hi⟩).getRecordIP = .error e →
      updatesFor i (runTick ⟨.ok X, ps⟩ lk).1 = [] ∧
      writesFor i (runTick ⟨.ok X, ps⟩ lk).1 = []) ∧
    (∀ (X : String) (ps : List ProviderBehavior) (lk : List (String × String))
      (i : Nat) (hi : i < ps.length) (Y e : String),
      (ps.get ⟨i, hi⟩).getRecordIP = .ok Y → Y ≠ X →
      (ps.get ⟨i, hi⟩).updateRecordIP X = .error e →
      writesFor i (runTick ⟨.ok X, ps⟩ lk).1 = []) ∧
    (∀ (e : String) (ps : List ProviderBehavior) (lk : List (String × String)),
      runTick ⟨.error e, ps⟩ lk = ([], lk)) ∧
    (∀ (env : PassEnv) (rest : List Ev) (lk : List (String × String)),
      (runLoop (.tick env :: rest) lk).2 = (runLoop rest (runTick env lk).2).2) := by
  refine ⟨?_, ?_, ?_, ?_, ?_⟩
  · intro X ps lk j hj
    rw [getsFor_runTick X ps lk j hj, getsFor_processProvider]
  · intro X ps lk i hi e hget
    constructor
    · rw [updatesFor_runTick X ps lk i hi,
        updatesFor_processProvider_err X i (ps.get ⟨i, hi⟩) e hget]
    · rw [writesFor_runTick X ps lk i hi,
        writesFor_processProvider_err X i (ps.get ⟨i, hi⟩) e hget]
  · intro X ps lk i hi Y e hget hne hupd
    rw [writesFor_runTick X ps lk i hi,
      writesFor_processProvider_updateErr X i (ps.get ⟨i, hi⟩) Y e hget hne hupd]
  · intro e ps lk; rfl
  · intro env rest lk; rfl

/-- Witness for C2: with provider 0 failing its read and provider 1 failing
its write, provider 1 is still read, provider 0 gets no update and no
last-known write, provider 1 gets no last-known write, a failed fetch
yields an empty tick, and the loop continues past a tick. -/
theorem per_provider_failure_isolation_witness :
    getsFor 1 (runTick ⟨.ok "9.9.9.9",
      [⟨"cloudflare", .error "api down", fun _ => .ok ()⟩,
       ⟨"route53", .ok "3.3.3.3", fun _ => .error "denied"⟩]⟩ []).1 =
      [Call.getRecord 1] ∧
    updatesFor 0 (runTick ⟨.ok "9.9.9.9",
      [⟨"cloudflare", .error "api down", fun _ => .ok ()⟩,
       ⟨"route53", .ok "3.3.3.3", fun _ => .error "denied"⟩]⟩ []).1 = [] ∧
    writesFor 1 (runTick ⟨.ok "9.9.9.9",
      [⟨"cloudflare", .error "api down", fun _ => .ok ()⟩,
       ⟨"route53", .ok "3.3.3.3", fun _ => .error "denied"⟩]⟩ []).1 = [] ∧
    runTick ⟨.error "dns fail", []⟩ [("cloudflare", "1.1.1.1")] =
      ([], [("cloudflare", "1.1.1.1")]) := by
  refine ⟨?_, ?_, ?_, ?_⟩
  · exact per_provider_failure_isolation.1 "9.9.9.9"
      [⟨"cloudflare", .error "api down", fun _ => .ok ()⟩,
       ⟨"route53", .ok "3.3.3.3", fun _ => .error "denied"⟩] [] 1 (by decide)
  · exact (per_provider_failure_isolation.2.1 "9.9.9.9"
      [⟨"cloudflare", .error "api down", fun _ => .ok ()⟩,
       ⟨"route53", .ok "3.3.3.3", fun _ => .error "denied"⟩] [] 0 (by decide)
      "api down" rfl).1
  · exact per_provider_failure_isolation.2.2.1 "9.9.9.9"
      [⟨"cloudflare", .error "api down", fun _ => .ok ()⟩,
       ⟨"route53", .ok "3.3.3.3", fun _ => .error "denied"⟩] [] 1 (by decide)
      "3.3.3.3" "denied" rfl (by decide) rfl
  · exact per_provider_failure_isolation.2.2.2.1 "dns fail" []
      [("cloudflare", "1.1.1.1")]

/-- C7: the loop returns (with nil error) exactly when the select trace
contains the cancellation event, and on a trace that cancels after `pre`
events the loop's calls are exactly the calls of `pre` — no provider call
is made at or after the cancellation, whatever events would have followed. -/
theorem loop_cancellation :
    (∀ (evs : List Ev) (lk : List (String × String)),
      (runLoop evs lk).2 = .returned none ↔ Ev.ctxDone ∈ evs) ∧
    (∀ (pre post : List Ev) (lk : List (String × String)), Ev.ctxDone ∉ pre →
      runLoop (pre ++ Ev.ctxDone :: post) lk = ((runLoop pre lk).1, .returned none)) :=
  ⟨runLoop_returned_iff, fun pre post lk h => runLoop_cancel post pre lk h⟩

/-- Witness for C7: an immediate cancellation returns nil with no calls. -/
theorem loop_cancellation_witness :
    runLoop [Ev.ctxDone] [] = ([], .returned none) := by
  have h := loop_cancellation.2 [] [] [] (by simp)
  simpa using h

/-- C3: registry construction fails iff no provider ends up enabled — when
neither hardcoded key yields a constructed, enabled adapter the registry
errors and `Start` returns the wrapped error rather than entering the loop;
when at least one enabled adapter decodes, construction succeeds. -/
theorem registry_fails_iff_empty :
    (∀ (cfg : Config) (evs : List Ev),
      enabledCloudflare cfg = none → enabledRoute53 cfg = none →
      NewDNSProviderRegistry (some cfg) (buildProvidersList cfg) =
        .error "no DNS providers enabled in config" ∧
      start (some cfg) evs =
        .registryError
          "failed to create DNS provider registry: no DNS providers enabled in config") ∧
    (∀ cfg : Config,
      (enabledCloudflare cfg).isSome ∨ (enabledRoute53 cfg).isSome →
      NewDNSProviderRegistry (some cfg) (buildProvidersList cfg) =
        .ok ⟨buildProvidersList cfg⟩) := by
  constructor
  · intro cfg evs h1 h2
    obtain ⟨hb, hs⟩ := start_registryError_of_none cfg evs h1 h2
    exact ⟨by rw [hb]; exact newRegistry_nil _, hs⟩
  · intro cfg h
    apply newRegistry_ok
    rw [buildProvidersList_eq]
    intro hnil
    rw [List.append_eq_nil] at hnil
    rcases h with h | h <;> rcases Option.isSome_iff_exists.mp h with ⟨x, hx⟩
    · rw [hx] at hnil; simp at hnil
    · rw [hx] at hnil; simp at hnil

/-- Witness for C3: the empty config makes the registry and `Start` fail
with the terminal error; the Cloudflare-only config constructs a registry. -/
theorem registry_fails_iff_empty_witness :
    NewDNSProviderRegistry (some cfgEmpty) (buildProvidersList cfgEmpty) =
      .error "no DNS providers enabled in config" ∧
    start (some cfgEmpty) [] =
      .registryError
        "failed to create DNS provider registry: no DNS providers enabled in config" ∧
    NewDNSProviderRegistry (some cfgCFOnly) (buildProvidersList cfgCFOnly) =
      .ok ⟨buildProvidersList cfgCFOnly⟩ := by
  have h1 := registry_fails_iff_empty.1 cfgEmpty [] rfl rfl
  have h2 := registry_fails_iff_empty.2 cfgCFOnly (Or.inl (by decide))
  exact ⟨h1.1, h1.2, h2⟩

/-- C4: the registry used by the update loop holds exactly the enabled,
decodable providers, in construction order — Cloudflare before Route53; in
particular a config with a single enabled provider yields exactly that
provider. -/
theorem registry_contents :
    (∀ cfg : Config,
      buildProvidersList cfg =
        ((enabledCloudflare cfg).map DNSProviderI.cloudflare).toList ++
        ((enabledRoute53 cfg).map DNSProviderI.route53).toList) ∧
    (∀ (cfg : Config) (cf : CloudflareProvider) (reg : DNSProviderRegistry),
      enabledCloudflare cfg = some cf → enabledRoute53 cfg = none →
      NewDNSProviderRegistry (some cfg) (buildProvidersList cfg) = .ok reg →
      reg.Providers = [DNSProviderI.cloudflare cf]) ∧
    (∀ (cfg : Config) (r53 : Route53Provider) (reg : DNSProviderRegistry),
      enabledCloudflare cfg = none → enabledRoute53 cfg = some r53 →
      NewDNSProviderRegistry (some cfg) (buildProvidersList cfg) = .ok reg →
      reg.Providers = [DNSProviderI.route53 r53]) ∧
    (∀ (cfg : Config) (cf : CloudflareProvider) (r53 : Route53Provider)
      (reg : DNSProviderRegistry),
      enabledCloudflare cfg = some cf → enabledRoute53 cfg = some r53 →
      NewDNSProviderRegistry (some cfg) (buildProvidersList cfg) = .ok reg →
      reg.Providers = [DNSProviderI.cloudflare cf, DNSProviderI.route53 r53]) := by
  refine ⟨buildProvidersList_eq, ?_, ?_, ?_⟩
  · intro cfg cf reg hcf hr hok
    rw [newRegistry_ok_providers _ _ _ hok, buildProvidersList_eq, hcf, hr]
    rfl
  · intro cfg r53 reg hcf hr hok
    rw [newRegistry_ok_providers _ _ _ hok, buildProvidersList_eq, hcf, hr]
    rfl
  · intro cfg cf r53 reg hcf hr hok
    rw [newRegistry_ok_providers _ _ _ hok, buildProvidersList_eq, hcf, hr]
    rfl

/-- Witness for C4: the Cloudflare-only config yields a registry of exactly
the Cloudflare adapter; the both-enabled config yields Cloudflare then
Route53. -/
theorem registry_contents_witness :
    buildProvidersList cfgCFOnly = [DNSProviderI.cloudflare cfW] ∧
    (⟨[DNSProviderI.cloudflare cfW]⟩ : DNSProviderRegistry).Providers =
      [DNSProviderI.cloudflare cfW] ∧
    (⟨[DNSProviderI.cloudflare cfW, DNSProviderI.route53 r53W]⟩ :
        DNSProviderRegistry).Providers =
      [DNSProviderI.cloudflare cfW, DNSProviderI.route53 r53W] := by
  refine ⟨by decide, ?_, ?_⟩
  · exact registry_contents.2.1 cfgCFOnly cfW _ rfl rfl rfl
  · exact registry_contents.2.2.2 cfgBoth cfW r53W _ rfl rfl rfl

/-- C9: a provider whose raw sub-map fails to decode is silently dropped —
no error surfaces from `Start`'s construction block — and when it was the
only candidate, `Start` reports the generic no-providers-enabled registry
error, indistinguishable from the same provider being disabled. -/
theorem malformed_provider_swallowed
    (raw : RawProviderConfig) (n : Nat) (u l : String) (evs : List Ev)
    (hdec : raw.decodeCloudflare = none) :
    buildProvidersList ⟨n, u, l, [("cloudflare", raw)]⟩ = [] ∧
    start (some ⟨n, u, l, [("cloudflare", raw)]⟩) evs =
      .registryError
        "failed to create DNS provider registry: no DNS providers enabled in config" ∧
    (∀ (raw2 : RawProviderConfig) (c2 : CloudflareConfig),
      raw2.decodeCloudflare = some c2 → c2.enabled = false →
      start (some ⟨n, u, l, [("cloudflare", raw2)]⟩) evs =
        start (some ⟨n, u, l, [("cloudflare", raw)]⟩) evs) := by
  have h1 : enabledCloudflare ⟨n, u, l, [("cloudflare", raw)]⟩ = none := by
    simp [enabledCloudflare, Config.lookupProvider, cloudflareNew, hdec]
  have h2 : enabledRoute53 ⟨n, u, l, [("cloudflare", raw)]⟩ = none := rfl
  obtain ⟨hb, hs⟩ := start_registryError_of_none _ evs h1 h2
  refine ⟨hb, hs, ?_⟩
  intro raw2 c2 hdec2 hen2
  have h1' : enabledCloudflare ⟨n, u, l, [("cloudflare", raw2)]⟩ = none := by
    simp [enabledCloudflare, Config.lookupProvider, cloudflareNew, hdec2, hen2]
  have h2' : enabledRoute53 ⟨n, u, l, [("cloudflare", raw2)]⟩ = none := rfl
  obtain ⟨hb', hs'⟩ := start_registryError_of_none _ evs h1' h2'
  rw [hs', hs]

/-- Witness for C9: the undecodable sub-map leaves the provider list empty
and makes `Start` fail with the generic registry error. -/
theorem malformed_provider_swallowed_witness :
    buildProvidersList ⟨300, "https://api.ipify.org", "info",
      [("cloudflare", rawBad)]⟩ = [] ∧
    start (some ⟨300, "https://api.ipify.org", "info",
      [("cloudflare", rawBad)]⟩) [] =
      .registryError
        "failed to create DNS provider registry: no DNS providers enabled in config" := by
  have h := malformed_provider_swallowed rawBad 300 "https://api.ipify.org" "info" [] rfl
  exact ⟨h.1, h.2.1⟩

/-- C6 counterexample: against a hosted zone with no record sets at all (so
no record matches the configured name/type) and a vendor API that accepts
the write, the Route53 `UpdateRecordIP` returns nil rather than an error —
refuting the claim that both providers fail on a missing record. -/
theorem route53_missing_record_update_succeeds :
    route53UpdateRecordIP ⟨[], none, none, none⟩ r53W.Cfg "1.2.3.4" = .ok () ∧
    ([] : List R53RecordSet).find?
      (fun r => r.name = r53W.Cfg.recordName && r.rtype = r53W.Cfg.recordType) =
      none :=
  ⟨rfl, rfl⟩

/-- C6 amended: the Cloudflare `UpdateRecordIP` errors whenever no record
matching the configured name/type exists (and when the vendor API errors or
rejects the write); the Route53 `UpdateRecordIP` never consults the existing
record sets — it issues an UPSERT that succeeds whenever client construction
and the change call succeed, and fails exactly on those two errors. -/
theorem updateRecordIP_missing_record :
    (∀ (api : CFApi) (cfg : CloudflareConfig) (ip : String),
      api.clientErr = none → api.listErr = none →
      (∀ r ∈ api.records, ¬(r.name = cfg.recordName ∧ r.rtype = cfg.recordType)) →
      cloudflareUpdateRecordIP api cfg ip = .error "record not found for update") ∧
    (∀ (api : CFApi) (cfg : CloudflareConfig) (ip e : String),
      api.clientErr = none → api.listErr = some e →
      cloudflareUpdateRecordIP api cfg ip = .error e) ∧
    (∀ (api : CFApi) (cfg : CloudflareConfig) (ip e : String),
      api.clientErr = none → api.listErr = none → api.updateErr = some e →
      (∃ r ∈ api.records, r.name = cfg.recordName ∧ r.rtype = cfg.recordType) →
      cloudflareUpdateRecordIP api cfg ip = .error e) ∧
    (∀ (api : R53Api) (cfg : Route53Config) (ip : String),
      api.clientErr = none → api.changeErr = none →
      route53UpdateRecordIP api cfg ip = .ok ()) ∧
    (∀ (api : R53Api) (cfg : Route53Config) (ip e : String),
      api.clientErr = none → api.changeErr = some e →
      route53UpdateRecordIP api cfg ip = .error e) := by
  refine ⟨?_, ?_, ?_, ?_, ?_⟩
  · intro api cfg ip hc hl hnone
    have hfind : api.records.find?
        (fun r => r.name = cfg.recordName && r.rtype = cfg.recordType) = none := by
      apply List.find?_eq_none.mpr
      intro r hr
      have hno := hnone r hr
      simp only [Bool.and_eq_true, decide_eq_true_eq, not_and]
      intro hn ht
      exact hno ⟨hn, ht⟩
    simp [cloudflareUpdateRecordIP, cfListDNSRecords, hc, hl, hfind]
  · intro api cfg ip e hc hl
    simp [cloudflareUpdateRecordIP, cfListDNSRecords, hc, hl]
  · intro api cfg ip e hc hl hu hex
    rcases hex with ⟨r, hmem, hn, ht⟩
    have hsome : (api.records.find?
        (fun r => r.name = cfg.recordName && r.rtype = cfg.recordType)).isSome := by
      rw [List.find?_isSome]
      exact ⟨r, hmem, by simp [hn, ht]⟩
    rcases Option.isSome_iff_exists.mp hsome with ⟨r0, hfind⟩
    simp [cloudflareUpdateRecordIP, cfListDNSRecords, hc, hl, hfind, hu]
  · intro api cfg ip hc hch
    simp [route53UpdateRecordIP, hc, hch]
  · intro api cfg ip e hc hch
    simp [route53UpdateRecordIP, hc, hch]

/-- Witness for C6 (amended): on an empty zone the Cloudflare update fails
with the not-found error while the Route53 update succeeds. -/
theorem updateRecordIP_missing_record_witness :
    cloudflareUpdateRecordIP ⟨[], none, none, none⟩ cfW.Cfg "1.2.3.4" =
      .error "record not found for update" ∧
    route53UpdateRecordIP ⟨[], none, none, none⟩ r53W.Cfg "1.2.3.4" = .ok () := by
  constructor
  · exact updateRecordIP_missing_record.1 ⟨[], none, none, none⟩ cfW.Cfg
      "1.2.3.4" rfl rfl (by simp)
  · exact updateRecordIP_missing_record.2.2.2.1 ⟨[], none, none, none⟩ r53W.Cfg
      "1.2.3.4" rfl rfl

end Dynago
